import Mathlib

/-!
Verification of the data-transform pipeline of the Climate Data Explorer
(`app.py`).  The pandas pipeline is shallowly embedded over `List`:

* raw CSV rows and loaded observations are records;
* floating point columns are modelled by `ℚ`, a missing value (`NaN`) by
  `Option`;
* `groupby(key).agg(mean)` is modelled by sorting the distinct keys
  (pandas sorts group keys ascending) and taking the arithmetic mean of
  each group, where the mean skips missing values and is itself missing
  on an all-missing group, exactly as pandas `mean` does;
* `rolling(window=W, center=True).mean()` is modelled after pandas'
  `FixedWindowIndexer`: with `offset = (W - 1) / 2` position `i` covers
  input positions `[i + offset + 1 - W, i + offset]`, and positions whose
  window is clipped produce a missing value (`min_periods` defaults to
  the window size);
* `Series.idxmax` / `idxmin` return the first position attaining the
  extreme value, modelled by a left fold that only replaces the current
  best on a strict improvement.
-/

namespace ClimateExplorer

/-- A raw CSV row of `data/ddbb_surface_temperature_countries.csv`:
columns `Country`, `Years`, `Anomaly`, `Temperature`; the two float
columns may be blank (`NaN`). -/
structure RawRow where
  country : String
  year : Int
  anomaly : Option ℚ
  temperature : Option ℚ
deriving DecidableEq

/-- An observation surviving `load_data`'s `dropna(subset=['Anomaly'])`:
its anomaly is present, its temperature may still be missing. -/
structure Observation where
  country : String
  year : Int
  anomaly : ℚ
  temperature : Option ℚ
deriving DecidableEq

/-- A row of the frame returned by `get_annual_data` (columns renamed to
`Year`, `Anomaly`, `Temperature`).  The temperature mean is missing when
every observation of the group has a missing temperature. -/
structure AnnualRecord where
  year : Int
  anomaly : ℚ
  temperature : Option ℚ
deriving DecidableEq

/-- A row of the frame returned by `get_decade_data` (columns `Decade`,
`Anomaly`). -/
structure DecadeRecord where
  decade : Int
  anomaly : ℚ
deriving DecidableEq

/-- Arithmetic mean of a list of rationals (callers only use it on
nonempty lists; pandas would return `NaN` on an empty one, see
`meanOpt`). -/
def mean (l : List ℚ) : ℚ := l.sum / (l.length : ℚ)

/-- pandas `Series.mean`: `NaN` (here `none`) on an empty series,
otherwise the arithmetic mean. -/
def meanOpt (l : List ℚ) : Option ℚ :=
  if l = [] then none else some (mean l)

/-- The ascending list of distinct keys of a pandas `groupby` (pandas
sorts group keys ascending by default). -/
def sortedKeys (l : List Int) : List Int :=
  List.insertionSort (· ≤ ·) l.dedup

/-- `load_data`: read the CSV and `dropna(subset=['Anomaly'])` — rows
with a missing anomaly are discarded, all other rows (including rows
with a missing temperature) are kept in order. -/
def load_data (rows : List RawRow) : List Observation :=
  rows.filterMap (fun r =>
    r.anomaly.map (fun a => ⟨r.country, r.year, a, r.temperature⟩))

/-- `df[df['Country'] == country]`. -/
def countryRows (df : List Observation) (country : String) : List Observation :=
  df.filter (fun o => o.country == country)

/-- One group of `country_data.groupby('Years')` together with its two
aggregated means: the anomaly mean is total (anomalies are present after
loading), the temperature mean skips missing values and is missing when
the whole group is missing, as pandas `mean` does. -/
def annualFor (df : List Observation) (country : String) (y : Int) : AnnualRecord :=
  { year := y
    anomaly := mean (((countryRows df country).filter (fun o => o.year == y)).map (·.anomaly))
    temperature :=
      meanOpt (((countryRows df country).filter (fun o => o.year == y)).filterMap (·.temperature)) }

/-- `get_annual_data`: filter to the country, group by `Years` (keys
sorted ascending), aggregate `Anomaly` and `Temperature` by mean. -/
def get_annual_data (df : List Observation) (country : String) : List AnnualRecord :=
  (sortedKeys ((countryRows df country).map (·.year))).map (annualFor df country)

/-- `(df['Year'] // 10) * 10` — Python `//` is floor division. -/
def decadeOf (y : Int) : Int := (Int.fdiv y 10) * 10

/-- One group of `df.groupby('Decade')` with its aggregated anomaly
mean. -/
def decadeFor (annual : List AnnualRecord) (d : Int) : DecadeRecord :=
  { decade := d
    anomaly := mean ((annual.filter (fun r => decadeOf r.year == d)).map (·.anomaly)) }

/-- `get_decade_data`: add the `Decade` column, group by it (keys sorted
ascending), aggregate the anomaly by mean. -/
def get_decade_data (annual : List AnnualRecord) : List DecadeRecord :=
  (sortedKeys (annual.map (fun r => decadeOf r.year))).map (decadeFor annual)

/-- `annual_data[(annual_data['Year'] >= a) & (annual_data['Year'] <= b)]`. -/
def filterRange (annual : List AnnualRecord) (a b : Int) : List AnnualRecord :=
  annual.filter (fun r => decide (a ≤ r.year) && decide (r.year ≤ b))

/-- `Series.rolling(window=W, center=True).mean()` on the anomaly
column.  pandas' `FixedWindowIndexer` uses `offset = (W - 1) // 2` and
has position `i` cover `[i + offset + 1 - W, i + offset]`; a position
whose window is clipped at either edge holds fewer than
`min_periods = W` points and yields `NaN`. -/
def rollingCenterMean (W : Nat) (xs : List ℚ) : List (Option ℚ) :=
  (List.range xs.length).map (fun i =>
    if W ≤ i + (W - 1) / 2 + 1 ∧ i + (W - 1) / 2 < xs.length then
      some (mean ((xs.drop (i + (W - 1) / 2 + 1 - W)).take W))
    else none)

/-- The fold underlying `Series.idxmax`: the running best is replaced
only on a strictly larger anomaly, so the first maximum wins. -/
def firstMaxA (r : AnnualRecord) (rs : List AnnualRecord) : AnnualRecord :=
  rs.foldl (fun best x => if best.anomaly < x.anomaly then x else best) r

/-- The fold underlying `Series.idxmin`: the running best is replaced
only on a strictly smaller anomaly, so the first minimum wins. -/
def firstMinA (r : AnnualRecord) (rs : List AnnualRecord) : AnnualRecord :=
  rs.foldl (fun best x => if x.anomaly < best.anomaly then x else best) r

/-- `df.loc[df['Anomaly'].idxmax()]` on an annual frame. -/
def idxmaxAnomaly : List AnnualRecord → Option AnnualRecord
  | [] => none
  | r :: rs => some (firstMaxA r rs)

/-- `df.loc[df['Anomaly'].idxmin()]` on an annual frame. -/
def idxminAnomaly : List AnnualRecord → Option AnnualRecord
  | [] => none
  | r :: rs => some (firstMinA r rs)

/-- The derived values of the auto-generated story: midpoint of the
selected range (`(year_range[0] + year_range[1]) // 2`), mean anomaly of
the years before / from the midpoint on, their difference, and the
warming/cooling qualifier `change > 0` (a comparison against `NaN` is
false in Python, hence `cooling` when a half is empty). -/
structure Narrative where
  mid : Int
  early : Option ℚ
  recent : Option ℚ
  change : Option ℚ
  warming : Bool
deriving DecidableEq

/-- The story generator's split-period computation on
`story_data = annual_filtered`. -/
def mkNarrative (story : List AnnualRecord) (a b : Int) : Narrative :=
  { mid := (a + b).fdiv 2
    early := meanOpt ((story.filter (fun r => decide (r.year < (a + b).fdiv 2))).map (·.anomaly))
    recent := meanOpt ((story.filter (fun r => decide ((a + b).fdiv 2 ≤ r.year))).map (·.anomaly))
    change :=
      match meanOpt ((story.filter (fun r => decide (r.year < (a + b).fdiv 2))).map (·.anomaly)),
          meanOpt ((story.filter (fun r => decide ((a + b).fdiv 2 ≤ r.year))).map (·.anomaly)) with
      | some e, some rc => some (rc - e)
      | _, _ => none
    warming :=
      match meanOpt ((story.filter (fun r => decide (r.year < (a + b).fdiv 2))).map (·.anomaly)),
          meanOpt ((story.filter (fun r => decide ((a + b).fdiv 2 ≤ r.year))).map (·.anomaly)) with
      | some e, some rc => decide (0 < rc - e)
      | _, _ => false }

/-- A cell of an exported delimited table.  The textual encoding of a
value is kept abstract: a cell carries the typed value that
`to_csv` prints and that re-parsing recovers (float repr round-trips);
`blank` is the empty cell pandas writes for `NaN`. -/
inductive Cell where
  | str (s : String)
  | int (n : Int)
  | rat (q : ℚ)
  | blank
deriving DecidableEq

/-- A delimited table: one list of cells per line. -/
abbrev Csv := List (List Cell)

/-- `annual_filtered.to_csv(index=False)`: a header line
`Year,Anomaly,Temperature` followed by one line per record, in frame
order. -/
def annualToCsv (l : List AnnualRecord) : Csv :=
  [Cell.str "Year", Cell.str "Anomaly", Cell.str "Temperature"] ::
    l.map (fun r =>
      [Cell.int r.year, Cell.rat r.anomaly,
        match r.temperature with
        | some t => Cell.rat t
        | none => Cell.blank])

/-- `decade_data.to_csv(index=False)`: header `Decade,Anomaly` then one
line per decade record, in frame order. -/
def decadeToCsv (l : List DecadeRecord) : Csv :=
  [Cell.str "Decade", Cell.str "Anomaly"] ::
    l.map (fun r => [Cell.int r.decade, Cell.rat r.anomaly])

/-- Read the (Year, Anomaly) pair off every data line of an exported
annual CSV; fail on any malformed line. -/
def parseRows : List (List Cell) → Option (List (Int × ℚ))
  | [] => some []
  | row :: rest =>
    match row with
    | [Cell.int y, Cell.rat q, _] =>
      match parseRows rest with
      | some ps => some ((y, q) :: ps)
      | none => none
    | _ => none

/-- Re-parse an exported annual CSV into its (Year, Anomaly) pairs:
check the header, then read the first two cells of every line. -/
def parseAnnualCsv (csv : Csv) : Option (List (Int × ℚ)) :=
  match csv with
  | [] => none
  | header :: rows =>
    if header = [Cell.str "Year", Cell.str "Anomaly", Cell.str "Temperature"] then
      parseRows rows
    else none

/-- `story_data[story_data['Year'] == story_data['Year'].max()].iloc[0]`:
the first record holding the maximal year.  The `headD` default is never
reached: the maximal year always occurs in the list. -/
def latestOf (r : AnnualRecord) (rs : List AnnualRecord) : AnnualRecord :=
  ((r :: rs).filter (fun x => x.year == (rs.map (·.year)).foldl max r.year)).headD r

/-- The decade frame of the Decade Analysis tab and of the decade CSV
export: `decade_data[decade_data['Decade'] >= year_range[0]]`. -/
def decadeView (fl : List AnnualRecord) (a : Int) : List DecadeRecord :=
  (get_decade_data fl).filter (fun rec => decide (a ≤ rec.decade))

/-- Everything the page renders after the empty-selection guard:
the four key metrics, the moving-average series, the decade frame, the
story, and the two CSV exports. -/
structure PageView where
  latest : AnnualRecord
  hottest : AnnualRecord
  coldest : AnnualRecord
  periodAvg : ℚ
  ma : List (Option ℚ)
  decades : List DecadeRecord
  narrative : Narrative
  annualCsv : Csv
  decadeCsv : Csv
deriving DecidableEq

/-- The dependent sections built from a nonempty filtered annual frame
`r :: rs`. -/
def buildPage (a b : Int) (W : Nat) (r : AnnualRecord) (rs : List AnnualRecord) : PageView :=
  { latest := latestOf r rs
    hottest := firstMaxA r rs
    coldest := firstMinA r rs
    periodAvg := mean ((r :: rs).map (·.anomaly))
    ma := rollingCenterMean W ((r :: rs).map (·.anomaly))
    decades := decadeView (r :: rs) a
    narrative := mkNarrative (r :: rs) a b
    annualCsv := annualToCsv (r :: rs)
    decadeCsv := decadeToCsv (decadeView (r :: rs) a) }

/-- The main render pass for one selection: compute
`annual_filtered`; when it is empty render the warning and `st.stop()`
(no dependent section is built — `none`), otherwise build every
dependent section from the filtered frame. -/
def renderMain (df : List Observation) (c : String) (a b : Int) (W : Nat) :
    Option PageView :=
  match filterRange (get_annual_data df c) a b with
  | [] => none
  | r :: rs => some (buildPage a b W r rs)

/-- Reasons `pd.read_csv('data/...')` can raise: the path does not exist
(`FileNotFoundError`) or the file exists but cannot be opened
(`PermissionError` and similar `OSError`s). -/
inductive ReadError where
  | fileNotFound
  | permissionDenied
deriving DecidableEq

/-- State of the dataset file on disk. -/
inductive FileStatus where
  | missing
  | unreadable (rows : List RawRow)
  | readable (rows : List RawRow)
deriving DecidableEq

/-- `pd.read_csv` on the fixed relative path, by file state. -/
def read_csv (fs : FileStatus) : Except ReadError (List RawRow) :=
  match fs with
  | .missing => .error .fileNotFound
  | .unreadable _ => .error .permissionDenied
  | .readable rows => .ok rows

/-- Outcome of the module-level load block. -/
inductive LoadOutcome where
  | running (df : List Observation)
  | haltedWithMessage
  | crashed (e : ReadError)
deriving DecidableEq

/-- The module-level `try: df = load_data() ... except FileNotFoundError:
st.error(...); st.stop()` block: only `FileNotFoundError` is caught and
turned into a user-facing message; any other exception raised while
opening the file propagates out of the script. -/
def loadPhase (fs : FileStatus) : LoadOutcome :=
  match read_csv fs with
  | .ok rows => .running (load_data rows)
  | .error .fileNotFound => .haltedWithMessage
  | .error e => .crashed e

/-! ### Group keys -/

theorem mem_sortedKeys {l : List Int} {y : Int} : y ∈ sortedKeys l ↔ y ∈ l := by
  unfold sortedKeys
  rw [(List.perm_insertionSort _ _).mem_iff, List.mem_dedup]

theorem nodup_sortedKeys (l : List Int) : (sortedKeys l).Nodup :=
  (List.perm_insertionSort _ _).nodup_iff.mpr l.nodup_dedup

theorem sorted_lt_sortedKeys (l : List Int) :
    List.Sorted (· < ·) (sortedKeys l) :=
  (List.sorted_insertionSort _ _).lt_of_le (nodup_sortedKeys l)

/-! ### The annual aggregate -/

theorem map_year_get_annual_data (df : List Observation) (c : String) :
    (get_annual_data df c).map (·.year)
      = sortedKeys ((countryRows df c).map (·.year)) := by
  unfold get_annual_data
  rw [List.map_map]
  have h : ((fun x : AnnualRecord => x.year) ∘ annualFor df c) = id := rfl
  rw [h, List.map_id]

theorem sorted_year_get_annual_data (df : List Observation) (c : String) :
    List.Sorted (· < ·) ((get_annual_data df c).map (·.year)) := by
  rw [map_year_get_annual_data]; exact sorted_lt_sortedKeys _

theorem nodup_year_get_annual_data (df : List Observation) (c : String) :
    ((get_annual_data df c).map (·.year)).Nodup := by
  rw [map_year_get_annual_data]; exact nodup_sortedKeys _

theorem countryRows_filter_year (df : List Observation) (c : String) (y : Int) :
    (countryRows df c).filter (fun o => o.year == y)
      = df.filter (fun o => o.country == c && o.year == y) := by
  unfold countryRows
  rw [List.filter_filter]
  apply List.filter_congr
  intro o _
  rw [Bool.and_comm]

theorem annualFor_anomaly (df : List Observation) (c : String) (y : Int) :
    (annualFor df c y).anomaly
      = mean ((df.filter (fun o => o.country == c && o.year == y)).map (·.anomaly)) := by
  simp [annualFor, countryRows_filter_year]

theorem annualFor_temperature (df : List Observation) (c : String) (y : Int) :
    (annualFor df c y).temperature
      = meanOpt ((df.filter (fun o => o.country == c && o.year == y)).filterMap (·.temperature)) := by
  simp [annualFor, countryRows_filter_year]

theorem mem_get_annual_data {df : List Observation} {c : String} {rec : AnnualRecord} :
    rec ∈ get_annual_data df c
      ↔ ∃ o ∈ df, o.country = c ∧ o.year = rec.year ∧ rec = annualFor df c rec.year := by
  unfold get_annual_data
  rw [List.mem_map]
  constructor
  · rintro ⟨y, hy, rfl⟩
    have hy' : y ∈ (countryRows df c).map (·.year) := mem_sortedKeys.mp hy
    obtain ⟨o, ho, hoy⟩ := List.mem_map.mp hy'
    obtain ⟨hodf, hoc⟩ := List.mem_filter.mp ho
    exact ⟨o, hodf, by simpa using hoc, by simpa [annualFor] using hoy, rfl⟩
  · rintro ⟨o, hodf, hoc, hoy, hrec⟩
    refine ⟨rec.year, mem_sortedKeys.mpr ?_, hrec.symm⟩
    exact List.mem_map.mpr ⟨o, List.mem_filter.mpr ⟨hodf, by simpa using hoc⟩, hoy⟩

theorem year_mem_get_annual_data (df : List Observation) (c : String) (y : Int) :
    (∃ rec ∈ get_annual_data df c, rec.year = y) ↔ ∃ o ∈ df, o.country = c ∧ o.year = y := by
  constructor
  · rintro ⟨rec, hrec, rfl⟩
    obtain ⟨o, hodf, hoc, hoy, -⟩ := mem_get_annual_data.mp hrec
    exact ⟨o, hodf, hoc, hoy⟩
  · rintro ⟨o, hodf, hoc, hoy⟩
    refine ⟨annualFor df c y, ?_, rfl⟩
    exact mem_get_annual_data.mpr ⟨o, hodf, hoc, by simpa [annualFor] using hoy, rfl⟩

theorem get_annual_data_of_unknown {df : List Observation} {c : String}
    (h : ∀ o ∈ df, o.country ≠ c) : get_annual_data df c = [] := by
  have hcr : countryRows df c = [] := by
    unfold countryRows
    rw [List.filter_eq_nil_iff]
    intro o ho
    simpa using h o ho
  unfold get_annual_data
  rw [hcr]
  rfl

/-- The "Testland" dataset of the spec's scenario: years 2000, 2001,
2002 with anomalies 0.1, 0.3, 0.2. -/
def testDf : List Observation :=
  [⟨"Testland", 2000, 1/10, none⟩, ⟨"Testland", 2001, 3/10, none⟩,
    ⟨"Testland", 2002, 1/5, none⟩]

/-- C1: for every loaded dataset and country name, `get_annual_data`
returns records sorted by year ascending with at most one record per
year; each record's anomaly (and temperature) is the arithmetic mean of
the anomalies (and of the present temperatures) of all observations with
that country and year; every country-year present in the data yields a
record, and an unknown country yields the empty frame rather than an
error. -/
theorem get_annual_data_spec (df : List Observation) (c : String) :
    List.Sorted (· < ·) ((get_annual_data df c).map (·.year)) ∧
    ((get_annual_data df c).map (·.year)).Nodup ∧
    (∀ rec ∈ get_annual_data df c,
      (∃ o ∈ df, o.country = c ∧ o.year = rec.year) ∧
      rec.anomaly
        = mean ((df.filter (fun o => o.country == c && o.year == rec.year)).map (·.anomaly)) ∧
      rec.temperature
        = meanOpt ((df.filter (fun o => o.country == c && o.year == rec.year)).filterMap (·.temperature))) ∧
    (∀ o ∈ df, o.country = c → ∃ rec ∈ get_annual_data df c, rec.year = o.year) ∧
    ((∀ o ∈ df, o.country ≠ c) → get_annual_data df c = []) := by
  refine ⟨sorted_year_get_annual_data df c, nodup_year_get_annual_data df c, ?_, ?_,
    get_annual_data_of_unknown⟩
  · intro rec hrec
    obtain ⟨o, hodf, hoc, hoy, hrec'⟩ := mem_get_annual_data.mp hrec
    refine ⟨⟨o, hodf, hoc, hoy⟩, ?_, ?_⟩
    · conv_lhs => rw [hrec']
      exact annualFor_anomaly df c rec.year
    · conv_lhs => rw [hrec']
      exact annualFor_temperature df c rec.year
  · intro o hodf hoc
    exact (year_mem_get_annual_data df c o.year).mpr ⟨o, hodf, hoc, rfl⟩

theorem get_annual_data_spec_witness :
    (get_annual_data testDf "Testland").map (·.year) = [2000, 2001, 2002] ∧
    (List.Sorted (· < ·) ((get_annual_data testDf "Testland").map (·.year)) ∧
      ((get_annual_data testDf "Testland").map (·.year)).Nodup ∧
      (∀ rec ∈ get_annual_data testDf "Testland",
        (∃ o ∈ testDf, o.country = "Testland" ∧ o.year = rec.year) ∧
        rec.anomaly
          = mean ((testDf.filter
              (fun o => o.country == "Testland" && o.year == rec.year)).map (·.anomaly)) ∧
        rec.temperature
          = meanOpt ((testDf.filter
              (fun o => o.country == "Testland" && o.year == rec.year)).filterMap (·.temperature))) ∧
      (∀ o ∈ testDf, o.country = "Testland" →
        ∃ rec ∈ get_annual_data testDf "Testland", rec.year = o.year) ∧
      ((∀ o ∈ testDf, o.country ≠ "Testland") → get_annual_data testDf "Testland" = [])) :=
  ⟨by decide, get_annual_data_spec testDf "Testland"⟩

/-! ### The decade aggregate -/

theorem decadeOf_eq_iff (y k : Int) :
    decadeOf y = k * 10 ↔ (k * 10 ≤ y ∧ y ≤ k * 10 + 9) := by
  unfold decadeOf
  rw [Int.fdiv_eq_ediv y (by norm_num : (0:Int) ≤ 10)]
  omega

theorem decadeOf_mul_ten (y : Int) : decadeOf y = y.fdiv 10 * 10 := rfl

theorem map_decade_get_decade_data (annual : List AnnualRecord) :
    (get_decade_data annual).map (·.decade)
      = sortedKeys (annual.map (fun r => decadeOf r.year)) := by
  unfold get_decade_data
  rw [List.map_map]
  have h : ((fun x : DecadeRecord => x.decade) ∘ decadeFor annual) = id := rfl
  rw [h, List.map_id]

theorem sorted_decade_get_decade_data (annual : List AnnualRecord) :
    List.Sorted (· < ·) ((get_decade_data annual).map (·.decade)) := by
  rw [map_decade_get_decade_data]; exact sorted_lt_sortedKeys _

theorem nodup_decade_get_decade_data (annual : List AnnualRecord) :
    ((get_decade_data annual).map (·.decade)).Nodup := by
  rw [map_decade_get_decade_data]; exact nodup_sortedKeys _

theorem mem_get_decade_data {annual : List AnnualRecord} {rec : DecadeRecord} :
    rec ∈ get_decade_data annual
      ↔ ∃ r ∈ annual, decadeOf r.year = rec.decade ∧ rec = decadeFor annual rec.decade := by
  unfold get_decade_data
  rw [List.mem_map]
  constructor
  · rintro ⟨d, hd, rfl⟩
    obtain ⟨r, hr, hrd⟩ := List.mem_map.mp (mem_sortedKeys.mp hd)
    exact ⟨r, hr, by simpa [decadeFor] using hrd, rfl⟩
  · rintro ⟨r, hr, hrd, hrec⟩
    refine ⟨rec.decade, mem_sortedKeys.mpr ?_, hrec.symm⟩
    exact List.mem_map.mpr ⟨r, hr, hrd⟩

theorem decade_mem_get_decade_data (annual : List AnnualRecord) (d : Int) :
    (∃ rec ∈ get_decade_data annual, rec.decade = d)
      ↔ ∃ r ∈ annual, decadeOf r.year = d := by
  constructor
  · rintro ⟨rec, hrec, rfl⟩
    obtain ⟨r, hr, hrd, -⟩ := mem_get_decade_data.mp hrec
    exact ⟨r, hr, hrd⟩
  · rintro ⟨r, hr, hrd⟩
    refine ⟨decadeFor annual d, ?_, rfl⟩
    exact mem_get_decade_data.mpr ⟨r, hr, by simpa [decadeFor] using hrd, rfl⟩

theorem decadeFor_anomaly_range (annual : List AnnualRecord) (k : Int) :
    (decadeFor annual (k * 10)).anomaly
      = mean ((annual.filter
          (fun r => decide (k * 10 ≤ r.year) && decide (r.year ≤ k * 10 + 9))).map (·.anomaly)) := by
  unfold decadeFor
  show mean ((annual.filter (fun r => decadeOf r.year == k * 10)).map (·.anomaly)) = _
  congr 1
  congr 1
  apply List.filter_congr
  intro r _
  have h := decadeOf_eq_iff r.year k
  rw [Bool.beq_eq_decide_eq, ← Bool.decide_and, decide_eq_decide]
  exact h

/-- The annual frame of the spec's "Testland" scenario. -/
def annual3 : List AnnualRecord :=
  [⟨2000, 1/10, none⟩, ⟨2001, 3/10, none⟩, ⟨2002, 1/5, none⟩]

/-- C3: `get_decade_data` produces one record per occupied decade with
`decade = floor(year/10) * 10` (Python `//` floor division), every
output decade a multiple of 10, the output sorted by decade ascending,
and each record's anomaly the exact mean of the anomalies of the input
records whose year lies in `[d, d + 9]`. -/
theorem get_decade_data_spec (annual : List AnnualRecord) :
    List.Sorted (· < ·) ((get_decade_data annual).map (·.decade)) ∧
    ((get_decade_data annual).map (·.decade)).Nodup ∧
    (∀ rec ∈ get_decade_data annual,
      rec.decade % 10 = 0 ∧
      (∃ r ∈ annual, r.year.fdiv 10 * 10 = rec.decade) ∧
      rec.anomaly
        = mean ((annual.filter
            (fun r => decide (rec.decade ≤ r.year) && decide (r.year ≤ rec.decade + 9))).map
              (·.anomaly))) ∧
    (∀ r ∈ annual, ∃ rec ∈ get_decade_data annual, rec.decade = r.year.fdiv 10 * 10) := by
  refine ⟨sorted_decade_get_decade_data annual, nodup_decade_get_decade_data annual, ?_, ?_⟩
  · intro rec hrec
    obtain ⟨r, hr, hrd, hrec'⟩ := mem_get_decade_data.mp hrec
    have hk : rec.decade = r.year.fdiv 10 * 10 := by
      rw [← hrd, decadeOf_mul_ten]
    refine ⟨by omega, ⟨r, hr, hk.symm⟩, ?_⟩
    conv_lhs => rw [hrec']
    rw [hk, decadeFor_anomaly_range]
  · intro r hr
    exact (decade_mem_get_decade_data annual (r.year.fdiv 10 * 10)).mpr
      ⟨r, hr, (decadeOf_mul_ten r.year)⟩

theorem get_decade_data_spec_witness :
    (get_decade_data annual3).map (·.decade) = [2000] ∧
    (List.Sorted (· < ·) ((get_decade_data annual3).map (·.decade)) ∧
      ((get_decade_data annual3).map (·.decade)).Nodup ∧
      (∀ rec ∈ get_decade_data annual3,
        rec.decade % 10 = 0 ∧
        (∃ r ∈ annual3, r.year.fdiv 10 * 10 = rec.decade) ∧
        rec.anomaly
          = mean ((annual3.filter
              (fun r => decide (rec.decade ≤ r.year) && decide (r.year ≤ rec.decade + 9))).map
                (·.anomaly))) ∧
      (∀ r ∈ annual3, ∃ rec ∈ get_decade_data annual3, rec.decade = r.year.fdiv 10 * 10)) :=
  ⟨by decide, get_decade_data_spec annual3⟩

/-! ### The centered moving average -/

theorem rollingCenterMean_length (W : Nat) (xs : List ℚ) :
    (rollingCenterMean W xs).length = xs.length := by
  simp [rollingCenterMean]

theorem rollingCenterMean_get (W : Nat) (xs : List ℚ) (i : Nat) (hi : i < xs.length) :
    (rollingCenterMean W xs)[i]? =
      some (if W ≤ i + (W - 1) / 2 + 1 ∧ i + (W - 1) / 2 < xs.length then
        some (mean ((xs.drop (i + (W - 1) / 2 + 1 - W)).take W))
      else none) := by
  unfold rollingCenterMean
  rw [List.getElem?_map, List.getElem?_range hi]
  rfl

/-- C2 (amended): for every window size `W ∈ [5, 20]` the centered
moving average is aligned one-to-one with its input, assigns to each
position with a full window the arithmetic mean of the `W` points of
that window, and assigns an explicit missing value (never zero) to
exactly the first `⌊W/2⌋` and the last `⌊(W-1)/2⌋` positions. -/
theorem rollingCenterMean_spec (xs : List ℚ) (W : Nat) (h5 : 5 ≤ W) (h20 : W ≤ 20) :
    (rollingCenterMean W xs).length = xs.length ∧
    (∀ i, i < xs.length →
      ((rollingCenterMean W xs)[i]? = some none ↔
        (i < W / 2 ∨ xs.length ≤ i + (W - 1) / 2)) ∧
      (W / 2 ≤ i → i + (W - 1) / 2 < xs.length →
        (rollingCenterMean W xs)[i]?
          = some (some (mean ((xs.drop (i - W / 2)).take W))))) := by
  refine ⟨rollingCenterMean_length W xs, fun i hi => ?_⟩
  have hg := rollingCenterMean_get W xs i hi
  by_cases hc : W ≤ i + (W - 1) / 2 + 1 ∧ i + (W - 1) / 2 < xs.length
  · rw [if_pos hc] at hg
    refine ⟨?_, fun h1 h2 => ?_⟩
    · rw [hg]
      simp only [Option.some.injEq]
      constructor
      · intro h
        exact absurd h (by simp)
      · intro h
        exact absurd h (by omega)
    · rw [hg]
      have hidx : i + (W - 1) / 2 + 1 - W = i - W / 2 := by omega
      rw [hidx]
  · rw [if_neg hc] at hg
    refine ⟨?_, fun h1 h2 => ?_⟩
    · rw [hg]
      simp only [Option.some.injEq]
      constructor
      · intro _
        omega
      · intro _
        trivial
    · exact absurd (by omega : W ≤ i + (W - 1) / 2 + 1 ∧ i + (W - 1) / 2 < xs.length) hc

theorem rollingCenterMean_spec_witness :
    (rollingCenterMean 5 (List.replicate 5 (0:ℚ))).map Option.isSome
      = [false, false, true, false, false] ∧
    ((rollingCenterMean 5 (List.replicate 5 (0:ℚ))).length = (List.replicate 5 (0:ℚ)).length ∧
      (∀ i, i < (List.replicate 5 (0:ℚ)).length →
        ((rollingCenterMean 5 (List.replicate 5 (0:ℚ)))[i]? = some none ↔
          (i < 5 / 2 ∨ (List.replicate 5 (0:ℚ)).length ≤ i + (5 - 1) / 2)) ∧
        (5 / 2 ≤ i → i + (5 - 1) / 2 < (List.replicate 5 (0:ℚ)).length →
          (rollingCenterMean 5 (List.replicate 5 (0:ℚ)))[i]?
            = some (some (mean (((List.replicate 5 (0:ℚ)).drop (i - 5 / 2)).take 5)))))) :=
  ⟨by decide, rollingCenterMean_spec (List.replicate 5 (0:ℚ)) 5 (by decide) (by decide)⟩

/-- C2 counterexample: the claim says the last `⌊W/2⌋` positions are
missing.  For the even window `W = 6` on a series of length 6, position
3 lies among the last `⌊6/2⌋ = 3` positions, yet the code assigns it the
full-window mean: pandas only leaves the last `⌊(W-1)/2⌋ = 2` positions
missing for an even window. -/
theorem rollingCenterMean_even_window_cex :
    (5:Nat) ≤ 6 ∧ (6:Nat) ≤ 20 ∧
    (List.replicate 6 (1:ℚ)).length - 6 / 2 ≤ 3 ∧
    (rollingCenterMean 6 (List.replicate 6 (1:ℚ)))[3]? ≠ some none ∧
    (rollingCenterMean 6 (List.replicate 6 (1:ℚ)))[3]?
      = some (some (mean (List.replicate 6 (1:ℚ)))) := by
  refine ⟨by decide, by decide, by decide, by decide, ?_⟩
  rw [rollingCenterMean_get 6 (List.replicate 6 (1:ℚ)) 3 (by decide)]
  rw [if_pos (by decide)]
  rfl

/-! ### First-occurrence extremes (`idxmax` / `idxmin`) -/

theorem firstMaxA_spec (r : AnnualRecord) (rs : List AnnualRecord)
    (hs : (r :: rs).Pairwise (fun x y => x.year < y.year)) :
    firstMaxA r rs ∈ r :: rs ∧
    (∀ x ∈ r :: rs, x.anomaly ≤ (firstMaxA r rs).anomaly) ∧
    (∀ x ∈ r :: rs, x.anomaly = (firstMaxA r rs).anomaly → (firstMaxA r rs).year ≤ x.year) := by
  induction rs generalizing r with
  | nil =>
    refine ⟨List.mem_singleton.mpr rfl, ?_, ?_⟩
    · intro x hx
      rw [List.mem_singleton] at hx
      subst hx
      exact le_refl _
    · intro x hx _
      rw [List.mem_singleton] at hx
      subst hx
      exact le_refl _
  | cons x rs ih =>
    rw [List.pairwise_cons] at hs
    obtain ⟨hr, hs'⟩ := hs
    have hfold : firstMaxA r (x :: rs) = firstMaxA (if r.anomaly < x.anomaly then x else r) rs := rfl
    by_cases hlt : r.anomaly < x.anomaly
    · rw [hfold, if_pos hlt]
      obtain ⟨hmem, hmax, hfirst⟩ := ih x hs'
      refine ⟨List.mem_cons_of_mem r hmem, ?_, ?_⟩
      · intro z hz
        rcases List.mem_cons.mp hz with hz | hz
        · subst hz
          exact le_of_lt (lt_of_lt_of_le hlt (hmax x (List.mem_cons_self _ _)))
        · exact hmax z hz
      · intro z hz heq
        rcases List.mem_cons.mp hz with hz | hz
        · subst hz
          exact absurd heq (ne_of_lt (lt_of_lt_of_le hlt (hmax x (List.mem_cons_self _ _))))
        · exact hfirst z hz heq
    · rw [hfold, if_neg hlt]
      have hxr : x.anomaly ≤ r.anomaly := le_of_not_lt hlt
      have hsr : (r :: rs).Pairwise (fun u v => u.year < v.year) := by
        rw [List.pairwise_cons]
        exact ⟨fun z hz => hr z (List.mem_cons_of_mem x hz), (List.pairwise_cons.mp hs').2⟩
      obtain ⟨hmem, hmax, hfirst⟩ := ih r hsr
      refine ⟨?_, ?_, ?_⟩
      · rcases List.mem_cons.mp hmem with hm | hm
        · rw [hm]
          exact List.mem_cons_self _ _
        · exact List.mem_cons_of_mem r (List.mem_cons_of_mem x hm)
      · intro z hz
        rcases List.mem_cons.mp hz with hz | hz
        · subst hz
          exact hmax z (List.mem_cons_self _ _)
        · rcases List.mem_cons.mp hz with hz | hz
          · subst hz
            exact le_trans hxr (hmax r (List.mem_cons_self _ _))
          · exact hmax z (List.mem_cons_of_mem r hz)
      · intro z hz heq
        rcases List.mem_cons.mp hz with hz | hz
        · subst hz
          exact hfirst z (List.mem_cons_self _ _) heq
        · rcases List.mem_cons.mp hz with hz | hz
          · subst hz
            have hra : r.anomaly = (firstMaxA r rs).anomaly :=
              le_antisymm (hmax r (List.mem_cons_self _ _)) (heq ▸ hxr)
            exact le_of_lt (lt_of_le_of_lt (hfirst r (List.mem_cons_self _ _) hra)
              (hr z (List.mem_cons_self _ _)))
          · exact hfirst z (List.mem_cons_of_mem r hz) heq

theorem firstMinA_spec (r : AnnualRecord) (rs : List AnnualRecord)
    (hs : (r :: rs).Pairwise (fun x y => x.year < y.year)) :
    firstMinA r rs ∈ r :: rs ∧
    (∀ x ∈ r :: rs, (firstMinA r rs).anomaly ≤ x.anomaly) ∧
    (∀ x ∈ r :: rs, x.anomaly = (firstMinA r rs).anomaly → (firstMinA r rs).year ≤ x.year) := by
  induction rs generalizing r with
  | nil =>
    refine ⟨List.mem_singleton.mpr rfl, ?_, ?_⟩
    · intro x hx
      rw [List.mem_singleton] at hx
      subst hx
      exact le_refl _
    · intro x hx _
      rw [List.mem_singleton] at hx
      subst hx
      exact le_refl _
  | cons x rs ih =>
    rw [List.pairwise_cons] at hs
    obtain ⟨hr, hs'⟩ := hs
    have hfold : firstMinA r (x :: rs) = firstMinA (if x.anomaly < r.anomaly then x else r) rs := rfl
    by_cases hlt : x.anomaly < r.anomaly
    · rw [hfold, if_pos hlt]
      obtain ⟨hmem, hmin, hfirst⟩ := ih x hs'
      refine ⟨List.mem_cons_of_mem r hmem, ?_, ?_⟩
      · intro z hz
        rcases List.mem_cons.mp hz with hz | hz
        · subst hz
          exact le_of_lt (lt_of_le_of_lt (hmin x (List.mem_cons_self _ _)) hlt)
        · exact hmin z hz
      · intro z hz heq
        rcases List.mem_cons.mp hz with hz | hz
        · subst hz
          exact absurd heq.symm (ne_of_lt (lt_of_le_of_lt (hmin x (List.mem_cons_self _ _)) hlt))
        · exact hfirst z hz heq
    · rw [hfold, if_neg hlt]
      have hxr : r.anomaly ≤ x.anomaly := le_of_not_lt hlt
      have hsr : (r :: rs).Pairwise (fun u v => u.year < v.year) := by
        rw [List.pairwise_cons]
        exact ⟨fun z hz => hr z (List.mem_cons_of_mem x hz), (List.pairwise_cons.mp hs').2⟩
      obtain ⟨hmem, hmin, hfirst⟩ := ih r hsr
      refine ⟨?_, ?_, ?_⟩
      · rcases List.mem_cons.mp hmem with hm | hm
        · rw [hm]
          exact List.mem_cons_self _ _
        · exact List.mem_cons_of_mem r (List.mem_cons_of_mem x hm)
      · intro z hz
        rcases List.mem_cons.mp hz with hz | hz
        · subst hz
          exact hmin z (List.mem_cons_self _ _)
        · rcases List.mem_cons.mp hz with hz | hz
          · subst hz
            exact le_trans (hmin r (List.mem_cons_self _ _)) hxr
          · exact hmin z (List.mem_cons_of_mem r hz)
      · intro z hz heq
        rcases List.mem_cons.mp hz with hz | hz
        · subst hz
          exact hfirst z (List.mem_cons_self _ _) heq
        · rcases List.mem_cons.mp hz with hz | hz
          · subst hz
            have hra : r.anomaly = (firstMinA r rs).anomaly :=
              le_antisymm (heq ▸ hxr) (hmin r (List.mem_cons_self _ _))
            exact le_of_lt (lt_of_le_of_lt (hfirst r (List.mem_cons_self _ _) hra)
              (hr z (List.mem_cons_self _ _)))
          · exact hfirst z (List.mem_cons_of_mem r hz) heq

theorem pairwise_year_filterRange (df : List Observation) (c : String) (a b : Int) :
    (filterRange (get_annual_data df c) a b).Pairwise (fun x y => x.year < y.year) := by
  have h1 := sorted_year_get_annual_data df c
  rw [List.Sorted, List.pairwise_map] at h1
  exact List.Pairwise.sublist (List.filter_sublist _) h1

/-- Comparison data with a tied maximum: years 2000 and 2001 share the
maximal anomaly. -/
def tieDf : List Observation :=
  [⟨"T", 2000, 1, none⟩, ⟨"T", 2001, 1, none⟩, ⟨"T", 2002, 0, none⟩]

/-- C4: on every annual series restricted to a year range, `idxmax`
(`idxmin`) reports an extreme record, and whenever several years share
the extreme anomaly the reported year is the smallest such year — the
annual frame is sorted by year ascending and the fold keeps the first
occurrence. -/
theorem hottest_coldest_tiebreak (df : List Observation) (c : String) (a b : Int)
    (hne : filterRange (get_annual_data df c) a b ≠ []) :
    ∃ hot cold,
      idxmaxAnomaly (filterRange (get_annual_data df c) a b) = some hot ∧
      idxminAnomaly (filterRange (get_annual_data df c) a b) = some cold ∧
      hot ∈ filterRange (get_annual_data df c) a b ∧
      cold ∈ filterRange (get_annual_data df c) a b ∧
      (∀ x ∈ filterRange (get_annual_data df c) a b, x.anomaly ≤ hot.anomaly) ∧
      (∀ x ∈ filterRange (get_annual_data df c) a b,
        x.anomaly = hot.anomaly → hot.year ≤ x.year) ∧
      (∀ x ∈ filterRange (get_annual_data df c) a b, cold.anomaly ≤ x.anomaly) ∧
      (∀ x ∈ filterRange (get_annual_data df c) a b,
        x.anomaly = cold.anomaly → cold.year ≤ x.year) := by
  have hp := pairwise_year_filterRange df c a b
  rcases hfl : filterRange (get_annual_data df c) a b with _ | ⟨r, rs⟩
  · exact absurd hfl hne
  · rw [hfl] at hp
    obtain ⟨hmem, hmax, hfirst⟩ := firstMaxA_spec r rs hp
    obtain ⟨hmem', hmin, hfirst'⟩ := firstMinA_spec r rs hp
    exact ⟨firstMaxA r rs, firstMinA r rs, rfl, rfl, hmem, hmem', hmax, hfirst, hmin, hfirst'⟩

theorem hottest_coldest_tiebreak_witness :
    filterRange (get_annual_data tieDf "T") 2000 2002 ≠ [] ∧
    (∃ hot cold,
      idxmaxAnomaly (filterRange (get_annual_data tieDf "T") 2000 2002) = some hot ∧
      idxminAnomaly (filterRange (get_annual_data tieDf "T") 2000 2002) = some cold ∧
      hot ∈ filterRange (get_annual_data tieDf "T") 2000 2002 ∧
      cold ∈ filterRange (get_annual_data tieDf "T") 2000 2002 ∧
      (∀ x ∈ filterRange (get_annual_data tieDf "T") 2000 2002, x.anomaly ≤ hot.anomaly) ∧
      (∀ x ∈ filterRange (get_annual_data tieDf "T") 2000 2002,
        x.anomaly = hot.anomaly → hot.year ≤ x.year) ∧
      (∀ x ∈ filterRange (get_annual_data tieDf "T") 2000 2002, cold.anomaly ≤ x.anomaly) ∧
      (∀ x ∈ filterRange (get_annual_data tieDf "T") 2000 2002,
        x.anomaly = cold.anomaly → cold.year ≤ x.year)) :=
  ⟨by decide, hottest_coldest_tiebreak tieDf "T" 2000 2002 (by decide)⟩

/-! ### The narrative generator -/

/-- Annual frame for the narrative witness: two flat early years, two
warmer recent years. -/
def annual5 : List AnnualRecord :=
  [⟨1990, 0, none⟩, ⟨1991, 0, none⟩, ⟨1992, 1, none⟩, ⟨1993, 1, none⟩]

/-- C5: on a filtered annual series whose two halves are both inhabited,
the narrative uses midpoint `(a + b) // 2` (floor division), computes
`early` as the mean anomaly over years before the midpoint and `recent`
over years from the midpoint on, reports `change = recent - early`, and
labels the period warming exactly when `recent - early` is positive
(cooling otherwise). -/
theorem narrative_split_spec (annual : List AnnualRecord) (a b : Int)
    (hE : (filterRange annual a b).filter
      (fun r => decide (r.year < (a + b).fdiv 2)) ≠ [])
    (hR : (filterRange annual a b).filter
      (fun r => decide ((a + b).fdiv 2 ≤ r.year)) ≠ []) :
    (mkNarrative (filterRange annual a b) a b).mid = (a + b).fdiv 2 ∧
    (mkNarrative (filterRange annual a b) a b).early
      = some (mean (((filterRange annual a b).filter
          (fun r => decide (r.year < (a + b).fdiv 2))).map (·.anomaly))) ∧
    (mkNarrative (filterRange annual a b) a b).recent
      = some (mean (((filterRange annual a b).filter
          (fun r => decide ((a + b).fdiv 2 ≤ r.year))).map (·.anomaly))) ∧
    (mkNarrative (filterRange annual a b) a b).change
      = some (mean (((filterRange annual a b).filter
            (fun r => decide ((a + b).fdiv 2 ≤ r.year))).map (·.anomaly))
          - mean (((filterRange annual a b).filter
            (fun r => decide (r.year < (a + b).fdiv 2))).map (·.anomaly))) ∧
    ((mkNarrative (filterRange annual a b) a b).warming = true
      ↔ 0 < mean (((filterRange annual a b).filter
            (fun r => decide ((a + b).fdiv 2 ≤ r.year))).map (·.anomaly))
          - mean (((filterRange annual a b).filter
            (fun r => decide (r.year < (a + b).fdiv 2))).map (·.anomaly))) := by
  have hE' : ((filterRange annual a b).filter
      (fun r => decide (r.year < (a + b).fdiv 2))).map (·.anomaly) ≠ [] := by
    simpa using hE
  have hR' : ((filterRange annual a b).filter
      (fun r => decide ((a + b).fdiv 2 ≤ r.year))).map (·.anomaly) ≠ [] := by
    simpa using hR
  simp only [mkNarrative, meanOpt, if_neg hE', if_neg hR', decide_eq_true_eq]
  exact ⟨trivial, trivial, trivial, trivial, trivial⟩

theorem narrative_split_spec_witness :
    (filterRange annual5 1990 1993).filter
      (fun r => decide (r.year < (1990 + 1993 : Int).fdiv 2)) ≠ [] ∧
    (filterRange annual5 1990 1993).filter
      (fun r => decide ((1990 + 1993 : Int).fdiv 2 ≤ r.year)) ≠ [] ∧
    ((mkNarrative (filterRange annual5 1990 1993) 1990 1993).mid
        = (1990 + 1993 : Int).fdiv 2 ∧
      (mkNarrative (filterRange annual5 1990 1993) 1990 1993).early
        = some (mean (((filterRange annual5 1990 1993).filter
            (fun r => decide (r.year < (1990 + 1993 : Int).fdiv 2))).map (·.anomaly))) ∧
      (mkNarrative (filterRange annual5 1990 1993) 1990 1993).recent
        = some (mean (((filterRange annual5 1990 1993).filter
            (fun r => decide ((1990 + 1993 : Int).fdiv 2 ≤ r.year))).map (·.anomaly))) ∧
      (mkNarrative (filterRange annual5 1990 1993) 1990 1993).change
        = some (mean (((filterRange annual5 1990 1993).filter
              (fun r => decide ((1990 + 1993 : Int).fdiv 2 ≤ r.year))).map (·.anomaly))
            - mean (((filterRange annual5 1990 1993).filter
              (fun r => decide (r.year < (1990 + 1993 : Int).fdiv 2))).map (·.anomaly))) ∧
      ((mkNarrative (filterRange annual5 1990 1993) 1990 1993).warming = true
        ↔ 0 < mean (((filterRange annual5 1990 1993).filter
              (fun r => decide ((1990 + 1993 : Int).fdiv 2 ≤ r.year))).map (·.anomaly))
            - mean (((filterRange annual5 1990 1993).filter
              (fun r => decide (r.year < (1990 + 1993 : Int).fdiv 2))).map (·.anomaly)))) :=
  ⟨by decide, by decide, narrative_split_spec annual5 1990 1993 (by decide) (by decide)⟩

/-! ### The empty-selection guard -/

theorem renderMain_eq_none_iff (df : List Observation) (c : String) (a b : Int) (W : Nat) :
    renderMain df c a b W = none ↔ filterRange (get_annual_data df c) a b = [] := by
  unfold renderMain
  cases hfl : filterRange (get_annual_data df c) a b with
  | nil => simp
  | cons r rs => simp

theorem renderMain_eq_some (df : List Observation) (c : String) (a b : Int) (W : Nat)
    (r : AnnualRecord) (rs : List AnnualRecord)
    (hfl : filterRange (get_annual_data df c) a b = r :: rs) :
    renderMain df c a b W = some (buildPage a b W r rs) := by
  unfold renderMain
  rw [hfl]

/-- C6: for every selection, the render pass short-circuits to the
warning (building no metric, chart, narrative or download section)
exactly when no annual record of the selected country lies in the year
range; as soon as one record is in range every dependent section is
built from the filtered frame. -/
theorem empty_selection_spec (df : List Observation) (c : String) (a b : Int) (W : Nat) :
    (renderMain df c a b W = none
      ↔ ∀ rec ∈ get_annual_data df c, ¬(a ≤ rec.year ∧ rec.year ≤ b)) ∧
    (filterRange (get_annual_data df c) a b ≠ [] →
      ∃ pv, renderMain df c a b W = some pv ∧
        pv.narrative = mkNarrative (filterRange (get_annual_data df c) a b) a b ∧
        pv.decades = decadeView (filterRange (get_annual_data df c) a b) a ∧
        pv.ma = rollingCenterMean W ((filterRange (get_annual_data df c) a b).map (·.anomaly)) ∧
        pv.annualCsv = annualToCsv (filterRange (get_annual_data df c) a b) ∧
        pv.decadeCsv = decadeToCsv (decadeView (filterRange (get_annual_data df c) a b) a)) := by
  constructor
  · rw [renderMain_eq_none_iff, filterRange, List.filter_eq_nil_iff]
    simp
  · intro hne
    rcases hfl : filterRange (get_annual_data df c) a b with _ | ⟨r, rs⟩
    · exact absurd hfl hne
    · exact ⟨buildPage a b W r rs, renderMain_eq_some df c a b W r rs hfl,
        rfl, rfl, rfl, rfl, rfl⟩

theorem empty_selection_spec_witness :
    renderMain testDf "Testland" 1700 1750 10 = none ∧
    filterRange (get_annual_data testDf "Testland") 2000 2002 ≠ [] ∧
    ((renderMain testDf "Testland" 2000 2002 10 = none
        ↔ ∀ rec ∈ get_annual_data testDf "Testland", ¬(2000 ≤ rec.year ∧ rec.year ≤ 2002)) ∧
      (filterRange (get_annual_data testDf "Testland") 2000 2002 ≠ [] →
        ∃ pv, renderMain testDf "Testland" 2000 2002 10 = some pv ∧
          pv.narrative
            = mkNarrative (filterRange (get_annual_data testDf "Testland") 2000 2002) 2000 2002 ∧
          pv.decades
            = decadeView (filterRange (get_annual_data testDf "Testland") 2000 2002) 2000 ∧
          pv.ma = rollingCenterMean 10
            ((filterRange (get_annual_data testDf "Testland") 2000 2002).map (·.anomaly)) ∧
          pv.annualCsv
            = annualToCsv (filterRange (get_annual_data testDf "Testland") 2000 2002) ∧
          pv.decadeCsv
            = decadeToCsv (decadeView (filterRange (get_annual_data testDf "Testland") 2000 2002)
                2000))) :=
  ⟨by rw [renderMain_eq_none_iff]; decide, by decide,
    empty_selection_spec testDf "Testland" 2000 2002 10⟩

/-! ### Loading errors -/

/-- C7 counterexample: a dataset file that exists but cannot be opened
makes `pd.read_csv` raise `PermissionError`, which the module-level
`except FileNotFoundError` clause does not catch — the exception
propagates instead of halting rendering with a user-facing message. -/
theorem load_unreadable_crashes :
    loadPhase (.unreadable []) = .crashed .permissionDenied ∧
    loadPhase (.unreadable []) ≠ .haltedWithMessage :=
  ⟨rfl, by decide⟩

/-- C7 (amended): loading halts rendering with a user-facing message
exactly when the dataset file is missing (`FileNotFoundError`); a
readable file proceeds to the preprocessed frame.  Other failures to
open the file are not caught and propagate. -/
theorem load_missing_halts (fs : FileStatus) :
    (loadPhase fs = .haltedWithMessage ↔ fs = .missing) ∧
    (∀ rows, loadPhase (.readable rows) = .running (load_data rows)) := by
  constructor
  · cases fs <;> simp [loadPhase, read_csv]
  · intro rows
    rfl

theorem load_missing_halts_witness :
    loadPhase .missing = .haltedWithMessage ∧
    ((loadPhase .missing = .haltedWithMessage ↔ (FileStatus.missing = .missing)) ∧
      (∀ rows, loadPhase (.readable rows) = .running (load_data rows))) :=
  ⟨rfl, load_missing_halts .missing⟩

/-! ### The CSV round trip -/

theorem parseRows_map (l : List AnnualRecord) :
    parseRows (l.map (fun r =>
        [Cell.int r.year, Cell.rat r.anomaly,
          match r.temperature with
          | some t => Cell.rat t
          | none => Cell.blank]))
      = some (l.map (fun r => (r.year, r.anomaly))) := by
  induction l with
  | nil => rfl
  | cons r rs ih =>
    rcases hrt : r.temperature with _ | t <;>
      simp [parseRows, hrt, ih]

/-- C8: re-parsing the exported annual CSV yields exactly the (Year,
Anomaly) pairs of the filtered annual series that was plotted (the chart
and the export both read `annual_filtered`), in the same year order. -/
theorem annual_csv_roundtrip (df : List Observation) (c : String) (a b : Int) :
    parseAnnualCsv (annualToCsv (filterRange (get_annual_data df c) a b))
      = some ((filterRange (get_annual_data df c) a b).map (fun r => (r.year, r.anomaly))) := by
  have h := parseRows_map (filterRange (get_annual_data df c) a b)
  unfold annualToCsv parseAnnualCsv
  simpa using h

/-! ### The decade view filter -/

/-- One in-range year, alone in its decade. -/
def annual9cex : List AnnualRecord := [⟨1996, 1, none⟩]

/-- In-range years in two different decades. -/
def annual9 : List AnnualRecord := [⟨1996, 1, none⟩, ⟨2003, 2, none⟩]

/-- C9 counterexample: for the range [1995, 1998] (with 1995 not a
multiple of 10) the whole selection lies in the single partial decade
1990, which is also the partial last decade — the decade containing
`b = 1998`.  `get_decade_data` produces it, but the view filter
`Decade >= year_range[0]` drops it, so the partial last decade is not
retained as the claim states. -/
theorem decadeView_drops_partial_last_decade :
    (1995:Int) % 10 ≠ 0 ∧
    (1998:Int).fdiv 10 * 10 = 1990 ∧
    (get_decade_data (filterRange annual9cex 1995 1998)).map (·.decade) = [1990] ∧
    decadeView (filterRange annual9cex 1995 1998) 1995 = [] := by
  refine ⟨by decide, by decide, by decide, by decide⟩

/-- C9 (amended): the decade view shown in the Decade Analysis tab and
exported to CSV keeps exactly the decade records with decade start
`>= a`; when `a` is not a multiple of 10 the partial first decade
(start `⌊a/10⌋·10 < a`) is dropped entirely even when occupied, while
the partial last decade (start `⌊b/10⌋·10`) is retained provided the
range spans at least two distinct decades and that decade is occupied —
when `a` and `b` fall in the same decade that single partial decade is
dropped and the view is empty. -/
theorem decadeView_spec (annual : List AnnualRecord) (a b : Int) :
    (∀ rec ∈ decadeView (filterRange annual a b) a, a ≤ rec.decade) ∧
    (∀ rec, rec ∈ decadeView (filterRange annual a b) a ↔
      (rec ∈ get_decade_data (filterRange annual a b) ∧ a ≤ rec.decade)) ∧
    (a % 10 ≠ 0 →
      ∀ rec ∈ decadeView (filterRange annual a b) a, rec.decade ≠ a.fdiv 10 * 10) ∧
    (a.fdiv 10 < b.fdiv 10 →
      (∃ r ∈ filterRange annual a b, r.year.fdiv 10 = b.fdiv 10) →
      ∃ rec ∈ decadeView (filterRange annual a b) a, rec.decade = b.fdiv 10 * 10) := by
  have hmem : ∀ rec, rec ∈ decadeView (filterRange annual a b) a ↔
      (rec ∈ get_decade_data (filterRange annual a b) ∧ a ≤ rec.decade) := by
    intro rec
    unfold decadeView
    rw [List.mem_filter]
    simp
  have ea : a.fdiv 10 = a / 10 := Int.fdiv_eq_ediv a (by norm_num)
  have eb : b.fdiv 10 = b / 10 := Int.fdiv_eq_ediv b (by norm_num)
  refine ⟨fun rec h => (hmem rec).mp h |>.2, hmem, ?_, ?_⟩
  · intro ha rec h heq
    have h2 : a ≤ rec.decade := (hmem rec).mp h |>.2
    rw [heq, ea] at h2
    omega
  · intro hd ⟨r, hr, hry⟩
    have hdec : decadeOf r.year = b.fdiv 10 * 10 := by
      rw [decadeOf_mul_ten, hry]
    obtain ⟨rec, hrec, hrd⟩ :=
      (decade_mem_get_decade_data (filterRange annual a b) (b.fdiv 10 * 10)).mpr ⟨r, hr, hdec⟩
    refine ⟨rec, (hmem rec).mpr ⟨hrec, ?_⟩, hrd⟩
    rw [hrd, eb]
    rw [ea, eb] at hd
    omega

theorem decadeView_spec_witness :
    (decadeView (filterRange annual9 1995 2003) 1995).map (·.decade) = [2000] ∧
    ((∀ rec ∈ decadeView (filterRange annual9 1995 2003) 1995, (1995:Int) ≤ rec.decade) ∧
      (∀ rec, rec ∈ decadeView (filterRange annual9 1995 2003) 1995 ↔
        (rec ∈ get_decade_data (filterRange annual9 1995 2003) ∧ (1995:Int) ≤ rec.decade)) ∧
      ((1995:Int) % 10 ≠ 0 →
        ∀ rec ∈ decadeView (filterRange annual9 1995 2003) 1995,
          rec.decade ≠ (1995:Int).fdiv 10 * 10) ∧
      ((1995:Int).fdiv 10 < (2003:Int).fdiv 10 →
        (∃ r ∈ filterRange annual9 1995 2003, r.year.fdiv 10 = (2003:Int).fdiv 10) →
        ∃ rec ∈ decadeView (filterRange annual9 1995 2003) 1995,
          rec.decade = (2003:Int).fdiv 10 * 10)) :=
  ⟨by decide, decadeView_spec annual9 1995 2003⟩

/-! ### Missing temperatures -/

theorem load_data_group_anomalies (rows : List RawRow) (c : String) (y : Int) :
    ((load_data rows).filter (fun o => o.country == c && o.year == y)).map (·.anomaly)
      = (rows.filter (fun r => r.country == c && r.year == y)).filterMap (·.anomaly) := by
  induction rows with
  | nil => rfl
  | cons r rest ih =>
    rcases hra : r.anomaly with _ | q <;>
      by_cases hc : (r.country == c && r.year == y) = true <;>
        simp [load_data, List.filterMap_cons, List.filter_cons, hra, hc] <;>
          simpa [load_data] using ih

theorem load_data_group_temps (rows : List RawRow) (c : String) (y : Int) :
    ((load_data rows).filter (fun o => o.country == c && o.year == y)).filterMap (·.temperature)
      = ((rows.filter (fun r => r.country == c && r.year == y)).filter
          (fun r => r.anomaly.isSome)).filterMap (·.temperature) := by
  induction rows with
  | nil => rfl
  | cons r rest ih =>
    rcases hra : r.anomaly with _ | q <;>
      by_cases hc : (r.country == c && r.year == y) = true <;>
        rcases hrt : r.temperature with _ | t <;>
          simp_all [load_data, List.filterMap_cons, List.filter_cons, List.filter_filter]

/-- C10: a raw row whose anomaly is present but whose temperature is
missing is retained by the loader and contributes to the annual anomaly
mean of its (country, year) group, while the group's annual temperature
mean is computed over only the rows whose temperature is present —
missing temperatures are skipped, never treated as zero. -/
theorem missing_temperature_spec (rows : List RawRow) (c : String) (y : Int) :
    ((load_data rows).filter (fun o => o.country == c && o.year == y)).map (·.anomaly)
      = (rows.filter (fun r => r.country == c && r.year == y)).filterMap (·.anomaly) ∧
    ((load_data rows).filter (fun o => o.country == c && o.year == y)).filterMap (·.temperature)
      = ((rows.filter (fun r => r.country == c && r.year == y)).filter
          (fun r => r.anomaly.isSome)).filterMap (·.temperature) ∧
    ((∃ r ∈ rows, r.country = c ∧ r.year = y ∧ r.anomaly.isSome) →
      ∃ rec ∈ get_annual_data (load_data rows) c, rec.year = y) ∧
    (∀ rec ∈ get_annual_data (load_data rows) c, rec.year = y →
      rec.anomaly
        = mean ((rows.filter (fun r => r.country == c && r.year == y)).filterMap (·.anomaly)) ∧
      rec.temperature
        = meanOpt (((rows.filter (fun r => r.country == c && r.year == y)).filter
            (fun r => r.anomaly.isSome)).filterMap (·.temperature))) := by
  refine ⟨load_data_group_anomalies rows c y, load_data_group_temps rows c y, ?_, ?_⟩
  · rintro ⟨r, hr, hc, hy, hs⟩
    rcases hra : r.anomaly with _ | q
    · rw [hra] at hs
      exact absurd hs (by simp)
    · apply (year_mem_get_annual_data (load_data rows) c y).mpr
      refine ⟨⟨r.country, r.year, q, r.temperature⟩, ?_, hc, hy⟩
      unfold load_data
      exact List.mem_filterMap.mpr ⟨r, hr, by rw [hra]; rfl⟩
  · intro rec hrec hy
    obtain ⟨o, ho, hoc, hoy, hrec'⟩ := mem_get_annual_data.mp hrec
    constructor
    · conv_lhs => rw [hrec']
      rw [annualFor_anomaly, hy, load_data_group_anomalies]
    · conv_lhs => rw [hrec']
      rw [annualFor_temperature, hy, load_data_group_temps]

/-- Rows for the C10 witness: two rows with a present anomaly (one of
them with a missing temperature) and one row with a missing anomaly. -/
def rows10 : List RawRow :=
  [⟨"C", 2000, some 1, some 10⟩, ⟨"C", 2000, some 3, none⟩, ⟨"C", 2000, none, some 99⟩]

theorem missing_temperature_spec_witness :
    (load_data rows10).length = 2 ∧
    (get_annual_data (load_data rows10) "C").map (·.year) = [2000] ∧
    (((load_data rows10).filter (fun o => o.country == "C" && o.year == 2000)).map (·.anomaly)
        = (rows10.filter (fun r => r.country == "C" && r.year == 2000)).filterMap (·.anomaly) ∧
      ((load_data rows10).filter
          (fun o => o.country == "C" && o.year == 2000)).filterMap (·.temperature)
        = ((rows10.filter (fun r => r.country == "C" && r.year == 2000)).filter
            (fun r => r.anomaly.isSome)).filterMap (·.temperature) ∧
      ((∃ r ∈ rows10, r.country = "C" ∧ r.year = 2000 ∧ r.anomaly.isSome) →
        ∃ rec ∈ get_annual_data (load_data rows10) "C", rec.year = 2000) ∧
      (∀ rec ∈ get_annual_data (load_data rows10) "C", rec.year = 2000 →
        rec.anomaly
          = mean ((rows10.filter
              (fun r => r.country == "C" && r.year == 2000)).filterMap (·.anomaly)) ∧
        rec.temperature
          = meanOpt (((rows10.filter (fun r => r.country == "C" && r.year == 2000)).filter
              (fun r => r.anomaly.isSome)).filterMap (·.temperature)))) :=
  ⟨by decide, by decide, missing_temperature_spec rows10 "C" 2000⟩

end ClimateExplorer
